import Mathlib

/-!
# Flameshot: capture-request orchestration in `src/main.cpp`

A shallow embedding of the command-line entry point of Flameshot
(`requestCaptureAndWait`, `guiMutexLock`, the option checkers and `main`),
followed by theorems about the request builders, the validators, the
capture-outcome handlers and the instance guard.

Conventions of the embedding:

* `QString` is `String`; `isEmpty` and `startsWith` work on the character list.
* Side effects are recorded as a list of `Effect`s, in program order.
* `qApp->exec()` is a function from the list of signals delivered by the
  Capture Engine to an optional exit code (`none`: the loop is never told to
  exit, the process keeps running).
* Collaborators that are not part of `main.cpp` (the command-line parser, the
  configuration store, `Region`, `QDir`) appear as fields of `Env`.
-/

namespace Flameshot

/-! ## QString operations -/

/-- The method `QString::isEmpty`. -/
def isEmpty (s : String) : Bool := s.data.isEmpty

/-- The method `QString::startsWith`. -/
def startsWith (s pre : String) : Bool := pre.data.isPrefixOf s.data

/-- ASCII white space as skipped by Qt's string-to-number conversion. -/
def isSpace (c : Char) : Bool :=
  c.toNat = 32 || (9 ≤ c.toNat && c.toNat ≤ 13)

/-- Decimal digit test. -/
def isDigit (c : Char) : Bool := 48 ≤ c.toNat && c.toNat ≤ 57

/-- Value of a decimal digit character. -/
def digitVal (c : Char) : Nat := c.toNat - 48

/-- Splits an optional leading sign off: the flag says whether it was `-`. -/
def stripSign : List Char → Bool × List Char
  | [] => (false, [])
  | c :: r => if c = '-' then (true, r) else if c = '+' then (false, r) else (false, c :: r)

/-- Accumulates the value of a run of decimal digits, most significant first. -/
def digitsValue (ds : List Char) : Nat := ds.foldl (fun acc c => 10 * acc + digitVal c) 0

/-- Base-10 string-to-integer conversion underlying `QString::toInt`, before the
range check: leading white space is skipped, one optional sign is read, at least
one digit is required, and only white space may follow the digits. -/
def toIntegral (cs : List Char) : Option Int :=
  let body := cs.dropWhile isSpace
  let signed := stripSign body
  let ds := signed.2.takeWhile isDigit
  let rest := signed.2.dropWhile isDigit
  if ds.isEmpty then none
  else if rest.all isSpace then
    some (if signed.1 then -(digitsValue ds : Int) else (digitsValue ds : Int))
  else none

/-- The call `QString::toInt(&ok)`: the pair `(ok, value)`. The conversion
fails, with value 0, when the text is not a number or the number does not fit
a 32-bit `int`. -/
def toInt (s : String) : Bool × Int :=
  match toIntegral s.data with
  | some v => if -2147483648 ≤ v ∧ v ≤ 2147483647 then (true, v) else (false, 0)
  | none => (false, 0)

/-! ## Numerals, as the specification reads them -/

/-- A text denotes the integer `v`: optional white space, an optional sign `+` or `-`, one
or more decimal digits, optional white space; the value is the digits read in base 10,
negated under a `-` sign. -/
def DenotesInt (s : String) (v : Int) : Prop :=
  ∃ pre sign ds post : List Char,
    s.data = pre ++ (sign ++ (ds ++ post)) ∧
    (∀ c ∈ pre, isSpace c = true) ∧
    (∀ c ∈ post, isSpace c = true) ∧
    ds ≠ [] ∧
    (∀ c ∈ ds, isDigit c = true) ∧
    (((sign = [] ∨ sign = ['+']) ∧ v = (Nat.ofDigits 10 (ds.reverse.map digitVal) : Nat)) ∨
      (sign = ['-'] ∧ v = -((Nat.ofDigits 10 (ds.reverse.map digitVal) : Nat) : Int)))

/-! ## Request model -/

/-- Rectangle `QRect`. -/
structure QRect where
  x : Int
  y : Int
  w : Int
  h : Int
  deriving DecidableEq, Repr

/-- The enumeration `CaptureRequest::CaptureMode`. -/
inductive CaptureMode where
  | FULLSCREEN_MODE
  | GRAPHICAL_MODE
  | SCREEN_MODE
  deriving DecidableEq, Repr

/-- Modelled from the spec: the post-capture tasks of `CaptureRequest`
(`src/core/capturerequest.h` is not among the sources). The spec lists
COPY, PRINT_RAW, PRINT_GEOMETRY, PIN, UPLOAD, SAVE(path?), ACCEPT_ON_SELECT;
`SAVE none` is the default save task, `SAVE (some p)` a save to `p`. -/
inductive ExportTask where
  | COPY
  | PRINT_RAW
  | PRINT_GEOMETRY
  | PIN
  | UPLOAD
  | ACCEPT_ON_SELECT
  | SAVE (path : Option String)
  deriving DecidableEq, Repr

/-- The third constructor argument of `CaptureRequest` as `main` passes it:
nothing (`full`), the save path (`gui`) or the screen number (`screen`). -/
inductive RequestData where
  | empty
  | path (p : String)
  | screen (n : Int)
  deriving DecidableEq, Repr

/-- Modelled from the spec: the class `CaptureRequest`
(`src/core/capturerequest.h` is not among the sources): a mode, a
non-negative delay, the target data, an optional initial selection and the
ordered list of tasks. -/
structure CaptureRequest where
  mode : CaptureMode
  delay : Nat
  data : RequestData
  initialSelection : Option QRect
  tasks : List ExportTask
  deriving DecidableEq, Repr

/-- Modelled from the spec: the constructor `CaptureRequest(mode, delay, data)`;
the `int` delay is converted to the `uint` parameter. -/
def CaptureRequest.new (mode : CaptureMode) (delay : Int) (data : RequestData) :
    CaptureRequest :=
  { mode := mode, delay := (delay % 4294967296).toNat, data := data,
    initialSelection := none, tasks := [] }

/-- Modelled from the spec: the method `CaptureRequest::setInitialSelection`. -/
def CaptureRequest.setInitialSelection (req : CaptureRequest) (r : QRect) : CaptureRequest :=
  { req with initialSelection := some r }

/-- Modelled from the spec: the method `CaptureRequest::addTask`. -/
def CaptureRequest.addTask (req : CaptureRequest) (t : ExportTask) : CaptureRequest :=
  { req with tasks := req.tasks ++ [t] }

/-- Modelled from the spec: the method `CaptureRequest::addSaveTask`; `none` is
the call without a path. -/
def CaptureRequest.addSaveTask (req : CaptureRequest) (path : Option String) : CaptureRequest :=
  { req with tasks := req.tasks ++ [ExportTask.SAVE path] }

/-- Whether a task is a SAVE task, with or without a path. -/
def ExportTask.isSave : ExportTask → Bool
  | .SAVE _ => true
  | _ => false

/-! ## Request builders: the bodies of the `gui`, `full` and `screen` branches -/

/-- Lines 449-480 of `main`: the request of the `gui` branch from the option
values. `regionValue` is `Region().value(region).toRect()` and `lastRegion` is
`getLastRegion()`. -/
def guiRequest (regionValue : String → QRect) (lastRegion : QRect)
    (delay : Int) (path region : String)
    (useLastRegion clipboard raw printGeometry pin upload acceptOnSelect : Bool) :
    CaptureRequest :=
  let req := CaptureRequest.new .GRAPHICAL_MODE delay (.path path)
  let req :=
    if !isEmpty region then req.setInitialSelection (regionValue region)
    else if useLastRegion then req.setInitialSelection lastRegion
    else req
  let req := if clipboard then req.addTask .COPY else req
  let req := if raw then req.addTask .PRINT_RAW else req
  let req := if !isEmpty path then req.addSaveTask (some path) else req
  let req := if printGeometry then req.addTask .PRINT_GEOMETRY else req
  let req := if pin then req.addTask .PIN else req
  let req := if upload then req.addTask .UPLOAD else req
  if acceptOnSelect then
    let req := req.addTask .ACCEPT_ON_SELECT
    if !clipboard && !raw && isEmpty path && !printGeometry && !pin && !upload then
      req.addSaveTask none
    else req
  else req

/-- Lines 497-515 of `main`: the request of the `full` branch. -/
def fullRequest (regionValue : String → QRect)
    (delay : Int) (path region : String) (clipboard raw upload : Bool) : CaptureRequest :=
  let req := CaptureRequest.new .FULLSCREEN_MODE delay .empty
  let req := if !isEmpty region then req.setInitialSelection (regionValue region) else req
  let req := if clipboard then req.addTask .COPY else req
  let req := if !isEmpty path then req.addSaveTask (some path) else req
  let req := if raw then req.addTask .PRINT_RAW else req
  let req := if upload then req.addTask .UPLOAD else req
  if !clipboard && isEmpty path && !raw && !upload then req.addSaveTask none else req

/-- The diagnostic of the `screen` branch for a `screen<N>` region. -/
def screenRegionErr : String :=
  "The 'screen' command does not support '--region screen<N>'.\nSee flameshot --help.\n"

/-- Lines 535-564 of `main`: the request of the `screen` branch, or the
diagnostic with which the branch calls `exit(1)`. -/
def screenRequest (regionValue : String → QRect)
    (screenNumber delay : Int) (path region : String) (clipboard raw pin upload : Bool) :
    Except String CaptureRequest :=
  let req := CaptureRequest.new .SCREEN_MODE delay (.screen screenNumber)
  if !isEmpty region && startsWith region "screen" then .error screenRegionErr
  else
    let req := if !isEmpty region then req.setInitialSelection (regionValue region) else req
    let req := if clipboard then req.addTask .COPY else req
    let req := if raw then req.addTask .PRINT_RAW else req
    let req := if !isEmpty path then req.addSaveTask (some path) else req
    let req := if pin then req.addTask .PIN else req
    let req := if upload then req.addTask .UPLOAD else req
    .ok (if !clipboard && !raw && isEmpty path && !pin && !upload then req.addSaveTask none
         else req)

/-! ## Option checkers and their wiring -/

/-- Lines 319-323 of `main`: the lambda `numericChecker`. -/
def numericChecker (delayValue : String) : Bool :=
  let r := toInt delayValue
  r.1 && decide (0 ≤ r.2)

/-- Lines 344-347 of `main`: the lambda `booleanChecker`. -/
def booleanChecker (value : String) : Bool :=
  value == "true" || value == "false"

/-- The `CommandOption` objects declared in `main`. -/
inductive CommandOption where
  | pathOption
  | clipboardOption
  | pinOption
  | uploadOption
  | delayOption
  | useLastRegionOption
  | regionOption
  | filenameOption
  | acceptOnSelectOption
  | trayOption
  | autostartOption
  | notificationOption
  | checkOption
  | showHelpOption
  | mainColorOption
  | contrastColorOption
  | rawImageOption
  | selectionOption
  | screenNumberOption
  | helpOption
  | versionOption
  deriving DecidableEq, Repr

/-- The `CommandArgument` objects (subcommands) declared in `main`. -/
inductive CommandArgument where
  | fullArgument
  | launcherArgument
  | guiArgument
  | configArgument
  | screenArgument
  deriving DecidableEq, Repr

/-- The checker lambdas of `main`. -/
inductive Checker where
  | colorChecker
  | numericChecker
  | regionChecker
  | pathChecker
  | booleanChecker
  deriving DecidableEq, Repr

/-- Lines 349-359 of `main`: which checker `addChecker` attaches to which option. -/
def addedChecker : CommandOption → Option Checker
  | .contrastColorOption => some .colorChecker
  | .mainColorOption => some .colorChecker
  | .delayOption => some .numericChecker
  | .regionOption => some .regionChecker
  | .useLastRegionOption => some .booleanChecker
  | .pathOption => some .pathChecker
  | .trayOption => some .booleanChecker
  | .autostartOption => some .booleanChecker
  | .notificationOption => some .booleanChecker
  | .showHelpOption => some .booleanChecker
  | .screenNumberOption => some .numericChecker
  | _ => none

/-- The state of `CommandLineParser` after a successful `parse`: which
subcommand and options were found and the value of each option (the empty
string, or the declared default, when the option is absent). -/
structure CommandLineParser where
  isSetArg : CommandArgument → Bool
  isSet : CommandOption → Bool
  value : CommandOption → String

/-! ## Logger targets -/

/-- The enumerators of `AbstractLogger::Target` that `main.cpp` uses, as bit
masks; their values are declared in `abstractlogger.h`, which is not among the
sources, so they are parameters. -/
structure LoggerTargets where
  Notification : Nat
  Default : Nat

/-- The operator `~` on a 32-bit `int`, as a bit pattern. -/
def bitNot32 (n : Nat) : Nat := 4294967295 - n

/-- Lines 84-88: the log target of the abort message. -/
def abortLogTarget (t : LoggerTargets) (showAbortNotification : Bool) : Nat :=
  if showAbortNotification then t.Default else t.Default &&& bitNot32 t.Notification

/-- Whether a message logged to `target` goes to the sink with bit mask `flag`. -/
def sentTo (target flag : Nat) : Bool := target &&& flag != 0

/-! ## Shared memory and the instance guard -/

/-- OS state of the named shared-memory segment: `none` when it does not exist,
`some n` when it exists with `n` attached handles (`some 0` is a segment left
behind by a crashed process). -/
abbrev ShmState := Option Nat

/-- A `QSharedMemory` object for the guard key: whether it is attached. -/
structure QSharedMemory where
  attached : Bool
  deriving DecidableEq, Repr

/-- The method `QSharedMemory::attach`: succeeds when the segment exists and
this object is not attached yet. -/
def QSharedMemory.attach (shm : QSharedMemory) (os : ShmState) : QSharedMemory × ShmState :=
  match os with
  | some n => if shm.attached then (shm, os) else ({ attached := true }, some (n + 1))
  | none => (shm, os)

/-- The method `QSharedMemory::detach`: the segment is destroyed when its last
attacher detaches. -/
def QSharedMemory.detach (shm : QSharedMemory) (os : ShmState) : QSharedMemory × ShmState :=
  if shm.attached then
    match os with
    | some n => ({ attached := false }, if n ≤ 1 then none else some (n - 1))
    | none => ({ attached := false }, none)
  else (shm, os)

/-- The destructor of `QSharedMemory`: detaches when attached. -/
def QSharedMemory.delete (shm : QSharedMemory) (os : ShmState) : ShmState :=
  (shm.detach os).2

/-- The method `QSharedMemory::create`: fails when the segment exists, else
creates it and attaches. -/
def QSharedMemory.create (shm : QSharedMemory) (os : ShmState) :
    Bool × QSharedMemory × ShmState :=
  match os with
  | some _ => (false, shm, os)
  | none => (true, { attached := true }, some 1)

/-- Lines 95-109: `guiMutexLock`. `isUnix` is the `Q_OS_UNIX` build; the result
is the returned pointer (`none` for `nullptr`) and the new OS state. -/
def guiMutexLock (isUnix : Bool) (os : ShmState) : Option QSharedMemory × ShmState :=
  let shm : QSharedMemory := { attached := false }
  let os :=
    if isUnix then
      let a := shm.attach os
      a.1.delete a.2
    else os
  let shm : QSharedMemory := { attached := false }
  let c := shm.create os
  if !c.1 then (none, c.2.2) else (some c.2.1, c.2.2)

/-! ## Effects, environment and the event loop -/

/-- Observable actions of `main.cpp`, recorded in program order. -/
inductive Effect where
  | configureApp (gui : Bool)
  | reinitializeAsQApplication
  | startDaemon
  | registerDBus
  | launcher
  | configGui
  | requestCapture (req : CaptureRequest)
  | info (target : Nat) (msg : String)
  | error (msg : String)
  | checkForErrors
  | setStartupLaunch (b : Bool)
  | setShowDesktopNotification (b : Bool)
  | setFilenamePattern (pattern : String)
  | printPattern (pattern : String)
  | setDisabledTrayIcon (b : Bool)
  | setUiColor (colorCode : String)
  | setContrastUiColor (colorCode : String)
  deriving DecidableEq, Repr

/-- The signals of the Capture Engine connected in `requestCaptureAndWait`. -/
inductive Signal where
  | captureTaken
  | captureFailed
  deriving DecidableEq, Repr

/-- Build platform, deciding the `Q_OS_*` conditionals. -/
inductive Platform where
  | linux
  | macos
  | windows
  deriving DecidableEq, Repr

/-- The macro `Q_OS_UNIX`. -/
def Platform.isUnix : Platform → Bool
  | .windows => false
  | _ => true

/-- Everything `main.cpp` reads from outside. -/
structure Env where
  /-- Build platform. -/
  platform : Platform
  /-- Built with `USE_KDSINGLEAPPLICATION`. -/
  useKDSingleApplication : Bool
  /-- Result of `kdsa.isPrimaryInstance()`. -/
  isPrimaryInstance : Bool
  /-- Argument count, program name included. -/
  argc : Nat
  /-- Result of `parser.parse(qApp->arguments())`: `none` when it returns false. -/
  parse : Option CommandLineParser
  /-- `ConfigHandler().allowMultipleGuiInstances()`. -/
  allowMultipleGuiInstances : Bool
  /-- `ConfigHandler().showAbortNotification()`. -/
  showAbortNotification : Bool
  /-- Result of `ConfigHandler().checkForErrors(&err)`. -/
  checkForErrors : Bool
  /-- `QDir(path).absolutePath()`. -/
  absolutePath : String → String
  /-- `Region().value(region).toRect()`. -/
  regionValue : String → QRect
  /-- `getLastRegion()`. -/
  lastRegion : QRect
  /-- Values of the logger target enumerators. -/
  targets : LoggerTargets
  /-- OS state of the guard segment when `main` starts. -/
  shm : ShmState
  /-- Signals the Capture Engine delivers while the loop of
  `requestCaptureAndWait` runs. -/
  signals : List Signal
  /-- `FlameshotDaemon::instance() != nullptr`. -/
  daemonInstance : Bool
  /-- `Flameshot::instance()->haveExternalWidget()`. -/
  haveExternalWidget : Bool
  /-- `FlameshotDaemon::isThisInstanceHostingWidgets()`. -/
  isThisInstanceHostingWidgets : Bool
  /-- Result of a `qApp->exec()` that serves windows (application, launcher,
  configuration dialog): `none` when it never returns. -/
  appExec : Option Int

/-- What a slot does: its effects and the code passed to `qApp->exit`, if any. -/
abbrev SlotResult := List Effect × Option Int

/-- Lines 70-82: the slot connected to `captureTaken`. -/
def onCaptureTaken (env : Env) : SlotResult :=
  match env.platform with
  | .macos => if !env.isThisInstanceHostingWidgets then ([], some 0) else ([], none)
  | _ => if !env.daemonInstance && !env.haveExternalWidget then ([], some 0) else ([], none)

/-- Lines 83-91: the slot connected to `captureFailed`. -/
def onCaptureFailed (env : Env) : SlotResult :=
  ([.info (abortLogTarget env.targets env.showAbortNotification) "Screenshot aborted."],
   some 1)

/-- The slots of `requestCaptureAndWait` by signal. -/
def captureSlot (env : Env) : Signal → SlotResult
  | .captureTaken => onCaptureTaken env
  | .captureFailed => onCaptureFailed env

/-- The call `qApp->exec()`: signals are dispatched in order until a slot calls
`qApp->exit(code)`; the loop then returns `code`. With no such call the loop
keeps waiting (`none`). -/
def exec (slot : Signal → SlotResult) : List Signal → SlotResult
  | [] => ([], none)
  | s :: rest =>
    match slot s with
    | (fx, some code) => (fx, some code)
    | (fx, none) => (fx ++ (exec slot rest).1, (exec slot rest).2)

/-- Lines 66-93: `requestCaptureAndWait`. -/
def requestCaptureAndWait (env : Env) (req : CaptureRequest) : SlotResult :=
  let r := exec (captureSlot env) env.signals
  (.requestCapture req :: r.1, r.2)

/-! ## The entry point -/

/-- Result of running `main`: the process exit code (`none` when an event loop
never returns), the effects in order, and the final OS state of the guard
segment. -/
structure Outcome where
  exitCode : Option Int
  effects : List Effect
  shm : ShmState

/-- The capture requests handed to `Flameshot::requestCapture`, in order. -/
def requestsOf : List Effect → List CaptureRequest
  | [] => []
  | .requestCapture req :: rest => req :: requestsOf rest
  | _ :: rest => requestsOf rest

/-- The capture requests submitted during a run. -/
def Outcome.requests (o : Outcome) : List CaptureRequest := requestsOf o.effects

/-- Lines 436-439, 486-489, 524-527: the path option, made absolute when given. -/
def resolvedPath (env : Env) (parser : CommandLineParser) : String :=
  let path := parser.value .pathOption
  if !isEmpty path then env.absolutePath path else path

/-- Lines 435-481: option values, request and wait of the `gui` branch. -/
def guiCapture (env : Env) (parser : CommandLineParser) : SlotResult :=
  let path := resolvedPath env parser
  let delay := (toInt (parser.value .delayOption)).2
  let region := parser.value .regionOption
  let useLastRegion := parser.isSet .useLastRegionOption
  let clipboard := parser.isSet .clipboardOption
  let raw := parser.isSet .rawImageOption
  let printGeometry := parser.isSet .selectionOption
  let pin := parser.isSet .pinOption
  let upload := parser.isSet .uploadOption
  let acceptOnSelect := parser.isSet .acceptOnSelectOption
  requestCaptureAndWait env
    (guiRequest env.regionValue env.lastRegion delay path region useLastRegion clipboard raw
      printGeometry pin upload acceptOnSelect)

/-- Lines 419-481: the `gui` branch. The slot connected to `aboutToQuit`
detaches and deletes the guard object when the event loop returns. -/
def guiBranch (env : Env) (parser : CommandLineParser) : Outcome :=
  if !env.allowMultipleGuiInstances then
    match guiMutexLock env.platform.isUnix env.shm with
    | (none, os) => ⟨some 1, [.reinitializeAsQApplication], os⟩
    | (some mutex, os) =>
      let r := guiCapture env parser
      ⟨r.2, .reinitializeAsQApplication :: r.1,
        if r.2.isSome then (mutex.detach os).2 else os⟩
  else
    let r := guiCapture env parser
    ⟨r.2, .reinitializeAsQApplication :: r.1, env.shm⟩

/-- Lines 482-516: the `full` branch. -/
def fullBranch (env : Env) (parser : CommandLineParser) : Outcome :=
  let path := resolvedPath env parser
  let delay := (toInt (parser.value .delayOption)).2
  let region := parser.value .regionOption
  let clipboard := parser.isSet .clipboardOption
  let raw := parser.isSet .rawImageOption
  let upload := parser.isSet .uploadOption
  let r := requestCaptureAndWait env (fullRequest env.regionValue delay path region clipboard raw upload)
  ⟨r.2, .reinitializeAsQApplication :: r.1, env.shm⟩

/-- Lines 520-523: the screen number from the option text. -/
def screenNumberOf (numberStr : String) : Int :=
  if startsWith numberStr "-" then -1 else (toInt numberStr).2

/-- Lines 517-566: the `screen` branch; a `screen<N>` region ends the process
with `exit(1)` after the diagnostic. -/
def screenBranch (env : Env) (parser : CommandLineParser) : Outcome :=
  let numberStr := parser.value .screenNumberOption
  let screenNumber := screenNumberOf numberStr
  let path := resolvedPath env parser
  let delay := (toInt (parser.value .delayOption)).2
  let region := parser.value .regionOption
  let clipboard := parser.isSet .clipboardOption
  let raw := parser.isSet .rawImageOption
  let pin := parser.isSet .pinOption
  let upload := parser.isSet .uploadOption
  match screenRequest env.regionValue screenNumber delay path region clipboard raw pin upload with
  | .error msg => ⟨some 1, [.reinitializeAsQApplication, .error msg], env.shm⟩
  | .ok req =>
    let r := requestCaptureAndWait env req
    ⟨r.2, .reinitializeAsQApplication :: r.1, env.shm⟩

/-- Lines 596-628: the setter calls of the `config` branch, in order. -/
def configSetters (parser : CommandLineParser)
    (autostart notification filename tray mainColor contrastColor : Bool) : List Effect :=
  (if autostart then [.setStartupLaunch (parser.value .autostartOption == "true")] else []) ++
  (if notification then
    [.setShowDesktopNotification (parser.value .notificationOption == "true")] else []) ++
  (if filename then
    [.setFilenamePattern (parser.value .filenameOption),
     .printPattern (parser.value .filenameOption)] else []) ++
  (if tray then [.setDisabledTrayIcon (parser.value .trayOption == "false")] else []) ++
  (if mainColor then [.setUiColor (parser.value .mainColorOption)] else []) ++
  (if contrastColor then [.setContrastUiColor (parser.value .contrastColorOption)] else [])

/-- Lines 567-630: the `config` branch. -/
def configBranch (env : Env) (parser : CommandLineParser) : Outcome :=
  let autostart := parser.isSet .autostartOption
  let notification := parser.isSet .notificationOption
  let filename := parser.isSet .filenameOption
  let tray := parser.isSet .trayOption
  let mainColor := parser.isSet .mainColorOption
  let contrastColor := parser.isSet .contrastColorOption
  let check := parser.isSet .checkOption
  let someFlagSet :=
    autostart || notification || filename || tray || mainColor || contrastColor || check
  if check then
    if env.checkForErrors then
      ⟨some 0, [.checkForErrors, .info env.targets.Default "No errors detected.\n"],
        env.shm⟩
    else ⟨some 1, [.checkForErrors], env.shm⟩
  else if !someFlagSet then
    ⟨env.appExec.map (fun _ => 0), [.reinitializeAsQApplication, .configGui], env.shm⟩
  else
    ⟨some 0, configSetters parser autostart notification filename tray mainColor contrastColor,
      env.shm⟩

/-- Lines 410-630: dispatch on the parsed command line. -/
def processData (env : Env) (parser : CommandLineParser) : Outcome :=
  if parser.isSet .helpOption || parser.isSet .versionOption then ⟨some 0, [], env.shm⟩
  else if parser.isSetArg .launcherArgument then
    ⟨env.appExec.map (fun _ => 0), [.reinitializeAsQApplication, .launcher], env.shm⟩
  else if parser.isSetArg .guiArgument then guiBranch env parser
  else if parser.isSetArg .fullArgument then fullBranch env parser
  else if parser.isSetArg .screenArgument then screenBranch env parser
  else if parser.isSetArg .configArgument then configBranch env parser
  else ⟨some 0, [], env.shm⟩

/-- Lines 167-634: `main`. With no argument the application is launched;
otherwise the command line is parsed and, when parsing fails, control jumps to
the label `finish`, which returns 0. -/
def main (env : Env) : Outcome :=
  if env.argc = 1 then
    if env.useKDSingleApplication && !env.isPrimaryInstance then ⟨some 0, [], env.shm⟩
    else
      ⟨env.appExec,
        [.configureApp true, .startDaemon] ++
          (if env.platform = .linux then [.registerDBus] else []),
        env.shm⟩
  else
    match env.parse with
    | none => ⟨some 0, [.configureApp false], env.shm⟩
    | some parser =>
      let o := processData env parser
      ⟨o.exitCode, .configureApp false :: o.effects, o.shm⟩

/-! ## Sample command lines -/

/-- Parser state after `flameshot full --clipboard`: the `full` subcommand and
the clipboard flag are set; absent options have the empty value, the screen
number its declared default. -/
def cliFullClipboard : CommandLineParser :=
  { isSetArg := fun a => decide (a = .fullArgument)
    isSet := fun o => decide (o = .clipboardOption)
    value := fun o => if o = .screenNumberOption then "-1" else "" }

/-- Parser state after `flameshot screen -n 2 --pin`. -/
def cliScreenN2Pin : CommandLineParser :=
  { isSetArg := fun a => decide (a = .screenArgument)
    isSet := fun o => decide (o = .screenNumberOption) || decide (o = .pinOption)
    value := fun o => if o = .screenNumberOption then "2" else "" }

/-- A Linux run with default configuration, no guard segment, and a Capture
Engine that reports success; the parser state is filled in per example. -/
def sampleEnv (argc : Nat) (parse : Option CommandLineParser) : Env :=
  { platform := .linux
    useKDSingleApplication := false
    isPrimaryInstance := true
    argc := argc
    parse := parse
    allowMultipleGuiInstances := false
    showAbortNotification := true
    checkForErrors := true
    absolutePath := fun p => "/home/user/" ++ p
    regionValue := fun _ => ⟨0, 0, 0, 0⟩
    lastRegion := ⟨0, 0, 0, 0⟩
    targets := { Notification := 1, Default := 11 }
    shm := none
    signals := [.captureTaken]
    daemonInstance := false
    haveExternalWidget := false
    isThisInstanceHostingWidgets := false
    appExec := some 0 }

/-- Parser state after `flameshot screen --region screen0`. -/
def cliScreenRegionScreen0 : CommandLineParser :=
  { isSetArg := fun a => decide (a = .screenArgument)
    isSet := fun o => decide (o = .regionOption)
    value := fun o =>
      if o = .screenNumberOption then "-1" else if o = .regionOption then "screen0" else "" }

/-- The sample run of `flameshot full --clipboard` in which the Capture Engine
reports a failure. -/
def abortedEnv : Env :=
  { sampleEnv 3 (some cliFullClipboard) with signals := [.captureFailed] }

/-- Whether an effect is a call of a `ConfigHandler` setter. -/
def Effect.isSetter : Effect → Bool
  | .setStartupLaunch _ => true
  | .setShowDesktopNotification _ => true
  | .setFilenamePattern _ => true
  | .setDisabledTrayIcon _ => true
  | .setUiColor _ => true
  | .setContrastUiColor _ => true
  | _ => false

/-- Parser state after `flameshot gui`. -/
def cliGui : CommandLineParser :=
  { isSetArg := fun a => decide (a = .guiArgument)
    isSet := fun _ => false
    value := fun o => if o = .screenNumberOption then "-1" else "" }

/-- The sample run of `flameshot gui` while another instance holds the guard
segment. -/
def busyEnv : Env :=
  { sampleEnv 2 (some cliGui) with shm := some 1 }

/-- The sample run of `flameshot gui` with multiple instances allowed, while
another instance holds the guard segment. -/
def multiEnv : Env :=
  { sampleEnv 2 (some cliGui) with shm := some 1, allowMultipleGuiInstances := true }

/-- Parser state after `flameshot config --showhelp true`. -/
def cliConfigShowhelp : CommandLineParser :=
  { isSetArg := fun a => decide (a = .configArgument)
    isSet := fun o => decide (o = .showHelpOption)
    value := fun o =>
      if o = .screenNumberOption then "-1" else if o = .showHelpOption then "true" else "" }

/-- Parser state after `flameshot config --check --autostart true`. -/
def cliConfigCheckAutostart : CommandLineParser :=
  { isSetArg := fun a => decide (a = .configArgument)
    isSet := fun o => decide (o = .checkOption) || decide (o = .autostartOption)
    value := fun o =>
      if o = .screenNumberOption then "-1" else if o = .autostartOption then "true" else "" }

/-! ## Task lists of the builders -/

theorem guiRequest_tasks (regionValue : String → QRect) (lastRegion : QRect)
    (delay : Int) (path region : String)
    (useLastRegion clipboard raw printGeometry pin upload acceptOnSelect : Bool) :
    (guiRequest regionValue lastRegion delay path region useLastRegion clipboard raw
      printGeometry pin upload acceptOnSelect).tasks =
      (if clipboard then [ExportTask.COPY] else []) ++
      (if raw then [ExportTask.PRINT_RAW] else []) ++
      (if isEmpty path then [] else [ExportTask.SAVE (some path)]) ++
      (if printGeometry then [ExportTask.PRINT_GEOMETRY] else []) ++
      (if pin then [ExportTask.PIN] else []) ++
      (if upload then [ExportTask.UPLOAD] else []) ++
      (if acceptOnSelect then
        ExportTask.ACCEPT_ON_SELECT ::
          (if !clipboard && !raw && isEmpty path && !printGeometry && !pin && !upload
            then [ExportTask.SAVE none] else [])
       else []) := by
  unfold guiRequest
  generalize isEmpty path = pe
  generalize isEmpty region = re
  cases clipboard <;> cases raw <;> cases printGeometry <;> cases pin <;> cases upload <;>
    cases acceptOnSelect <;> cases pe <;> cases re <;> cases useLastRegion <;>
    simp [CaptureRequest.addTask, CaptureRequest.addSaveTask, CaptureRequest.new,
      CaptureRequest.setInitialSelection]

theorem guiRequest_mode (regionValue : String → QRect) (lastRegion : QRect)
    (delay : Int) (path region : String)
    (useLastRegion clipboard raw printGeometry pin upload acceptOnSelect : Bool) :
    (guiRequest regionValue lastRegion delay path region useLastRegion clipboard raw
      printGeometry pin upload acceptOnSelect).mode = CaptureMode.GRAPHICAL_MODE := by
  unfold guiRequest
  generalize isEmpty path = pe
  generalize isEmpty region = re
  cases clipboard <;> cases raw <;> cases printGeometry <;> cases pin <;> cases upload <;>
    cases acceptOnSelect <;> cases pe <;> cases re <;> cases useLastRegion <;>
    simp [CaptureRequest.addTask, CaptureRequest.addSaveTask, CaptureRequest.new,
      CaptureRequest.setInitialSelection]

theorem fullRequest_tasks (regionValue : String → QRect)
    (delay : Int) (path region : String) (clipboard raw upload : Bool) :
    (fullRequest regionValue delay path region clipboard raw upload).tasks =
      (if clipboard then [ExportTask.COPY] else []) ++
      (if isEmpty path then [] else [ExportTask.SAVE (some path)]) ++
      (if raw then [ExportTask.PRINT_RAW] else []) ++
      (if upload then [ExportTask.UPLOAD] else []) ++
      (if !clipboard && isEmpty path && !raw && !upload then [ExportTask.SAVE none] else []) := by
  unfold fullRequest
  generalize isEmpty path = pe
  generalize isEmpty region = re
  cases clipboard <;> cases raw <;> cases upload <;> cases pe <;> cases re <;>
    simp [CaptureRequest.addTask, CaptureRequest.addSaveTask, CaptureRequest.new,
      CaptureRequest.setInitialSelection]

theorem fullRequest_mode (regionValue : String → QRect)
    (delay : Int) (path region : String) (clipboard raw upload : Bool) :
    (fullRequest regionValue delay path region clipboard raw upload).mode =
      CaptureMode.FULLSCREEN_MODE := by
  unfold fullRequest
  generalize isEmpty path = pe
  generalize isEmpty region = re
  cases clipboard <;> cases raw <;> cases upload <;> cases pe <;> cases re <;>
    simp [CaptureRequest.addTask, CaptureRequest.addSaveTask, CaptureRequest.new,
      CaptureRequest.setInitialSelection]

/-- The request of the `screen` branch when the region check passes, field by
field. -/
theorem screenRequest_ok (regionValue : String → QRect)
    (screenNumber delay : Int) (path region : String) (clipboard raw pin upload : Bool)
    (hregion : startsWith region "screen" = false) :
    screenRequest regionValue screenNumber delay path region clipboard raw pin upload =
      .ok { mode := .SCREEN_MODE
            delay := (delay % 4294967296).toNat
            data := .screen screenNumber
            initialSelection := if isEmpty region then none else some (regionValue region)
            tasks :=
              (if clipboard then [ExportTask.COPY] else []) ++
              (if raw then [ExportTask.PRINT_RAW] else []) ++
              (if isEmpty path then [] else [ExportTask.SAVE (some path)]) ++
              (if pin then [ExportTask.PIN] else []) ++
              (if upload then [ExportTask.UPLOAD] else []) ++
              (if !clipboard && !raw && isEmpty path && !pin && !upload
                then [ExportTask.SAVE none] else []) } := by
  unfold screenRequest
  rw [hregion]
  generalize isEmpty path = pe
  generalize isEmpty region = re
  cases clipboard <;> cases raw <;> cases pin <;> cases upload <;> cases pe <;> cases re <;>
    simp [CaptureRequest.addTask, CaptureRequest.addSaveTask, CaptureRequest.new,
      CaptureRequest.setInitialSelection]

theorem requestsOf_append (a b : List Effect) :
    requestsOf (a ++ b) = requestsOf a ++ requestsOf b := by
  induction a with
  | nil => simp [requestsOf]
  | cons e rest ih => cases e <;> simp [requestsOf, ih]

theorem onCaptureTaken_effects (env : Env) : (onCaptureTaken env).1 = [] := by
  unfold onCaptureTaken
  split <;> split <;> rfl

theorem captureSlot_requests (env : Env) (s : Signal) :
    requestsOf (captureSlot env s).1 = [] := by
  cases s with
  | captureTaken => simp [captureSlot, onCaptureTaken_effects, requestsOf]
  | captureFailed => simp [captureSlot, onCaptureFailed, requestsOf]

/-- Slots never submit a capture request. -/
theorem requestsOf_exec (env : Env) (sigs : List Signal) :
    requestsOf (exec (captureSlot env) sigs).1 = [] := by
  induction sigs with
  | nil => simp [exec, requestsOf]
  | cons s rest ih =>
    have hs := captureSlot_requests env s
    unfold exec
    rcases hslot : captureSlot env s with ⟨fx, code⟩
    rw [hslot] at hs
    cases code with
    | none => simpa [requestsOf_append, ih] using hs
    | some c => simpa using hs

/-- The only request recorded by `requestCaptureAndWait` is the one it is given. -/
theorem requestsOf_requestCaptureAndWait (env : Env) (req : CaptureRequest) :
    requestsOf (requestCaptureAndWait env req).1 = [req] := by
  simp [requestCaptureAndWait, requestsOf, requestsOf_exec]

/-! ## Request builders: default SAVE and the shape of requests -/

/-- C1: for the `full` and `screen` builders and every combination of flags, the
task list contains the default SAVE task (SAVE without a path) exactly when none
of clipboard, raw, upload, a non-empty path and, for `screen` only, pin is set;
and `flameshot full --clipboard` submits exactly one request, of mode
FULLSCREEN, with tasks `[COPY]`. -/
theorem C1_default_save_iff_no_output :
    (∀ (regionValue : String → QRect) (delay : Int) (path region : String)
        (clipboard raw upload : Bool),
      ExportTask.SAVE none ∈
          (fullRequest regionValue delay path region clipboard raw upload).tasks ↔
        (clipboard = false ∧ raw = false ∧ upload = false ∧ isEmpty path = true)) ∧
    (∀ (regionValue : String → QRect) (screenNumber delay : Int) (path region : String)
        (clipboard raw pin upload : Bool),
      startsWith region "screen" = false →
      ∃ req, screenRequest regionValue screenNumber delay path region clipboard raw pin upload
               = .ok req ∧
        (ExportTask.SAVE none ∈ req.tasks ↔
          (clipboard = false ∧ raw = false ∧ upload = false ∧ isEmpty path = true ∧
            pin = false))) ∧
    (∀ env : Env,
      (main { env with argc := 3, parse := some cliFullClipboard }).requests =
        [{ mode := .FULLSCREEN_MODE, delay := 0, data := .empty, initialSelection := none,
           tasks := [.COPY] }]) := by
  refine ⟨?_, ?_, ?_⟩
  · intro regionValue delay path region clipboard raw upload
    rw [fullRequest_tasks]
    generalize isEmpty path = pe
    cases clipboard <;> cases raw <;> cases upload <;> cases pe <;> simp
  · intro regionValue screenNumber delay path region clipboard raw pin upload hregion
    refine ⟨_, screenRequest_ok regionValue screenNumber delay path region clipboard raw pin
      upload hregion, ?_⟩
    generalize isEmpty path = pe
    cases clipboard <;> cases raw <;> cases upload <;> cases pin <;> cases pe <;> simp
  · intro env
    have hreq : fullRequest env.regionValue 0 "" "" true false false =
        { mode := .FULLSCREEN_MODE, delay := 0, data := .empty, initialSelection := none,
          tasks := [.COPY] } := by
      rfl
    have hdelay : (toInt "").2 = 0 := by decide
    have hempty : isEmpty "" = true := by decide
    simp [main, processData, cliFullClipboard, fullBranch, resolvedPath, Outcome.requests,
      requestsOf, requestCaptureAndWait, requestsOf_exec, hreq, hdelay, hempty]

/-- Witness of C1 on `flameshot screen` with no option at all: the region check
passes and the request carries the default SAVE task. -/
theorem C1_default_save_iff_no_output_witness :
    startsWith "" "screen" = false ∧
      ExportTask.SAVE none ∈
        (match screenRequest (fun _ => ⟨0, 0, 0, 0⟩) (-1) 0 "" "" false false false false with
         | .ok req => req.tasks
         | .error _ => []) := by
  refine ⟨by decide, ?_⟩
  obtain ⟨req, hreq, hiff⟩ := C1_default_save_iff_no_output.2.1 (fun _ => ⟨0, 0, 0, 0⟩) (-1) 0
    "" "" false false false false (by decide)
  rw [hreq]
  exact hiff.2 ⟨rfl, rfl, rfl, by decide, rfl⟩

/-- C2 (as stated, refuted): on `flameshot screen -n 2 --pin` the one request
submitted has task list `[PIN]`; no submitted request carries a default SAVE
task. -/
theorem C2_screen_pin_default_save_counterexample :
    (main (sampleEnv 5 (some cliScreenN2Pin))).requests.map CaptureRequest.tasks
        = [[ExportTask.PIN]] ∧
      ((main (sampleEnv 5 (some cliScreenN2Pin))).requests.any
        fun req => decide (ExportTask.SAVE none ∈ req.tasks)) = false := by
  decide

/-- C2 (amended): `flameshot screen -n 2 --pin` submits exactly one request: mode
SCREEN, screen index 2, no delay, no initial selection, and task list exactly
`[PIN]`; the default SAVE task is not added because pin is set. -/
theorem C2_screen_pin_request (env : Env) :
    (main { env with argc := 5, parse := some cliScreenN2Pin }).requests =
      [{ mode := .SCREEN_MODE, delay := 0, data := .screen 2, initialSelection := none,
         tasks := [.PIN] }] := by
  have hreq : screenRequest env.regionValue 2 0 "" "" false false true false =
      .ok { mode := .SCREEN_MODE, delay := 0, data := .screen 2, initialSelection := none,
            tasks := [.PIN] } := by
    rfl
  have hdelay : (toInt "").2 = 0 := by decide
  have hnum : screenNumberOf "2" = 2 := by decide
  have hempty : isEmpty "" = true := by decide
  simp [main, processData, cliScreenN2Pin, screenBranch, resolvedPath, Outcome.requests,
    requestsOf, requestCaptureAndWait, requestsOf_exec, hreq, hdelay, hnum, hempty]
  rfl

/-- C3: for the `gui` builder and every combination of flags: with
accept-on-select set and none of clipboard, raw, a non-empty path,
print-geometry, pin, upload, the task list is ACCEPT_ON_SELECT followed by one
SAVE task without a path; and the task list contains a path-less SAVE task only
in that case (never when accept-on-select is unset or another output flag is
set). -/
theorem C3_gui_accept_on_select_default_save :
    (∀ (regionValue : String → QRect) (lastRegion : QRect) (delay : Int)
        (path region : String) (useLastRegion : Bool),
      isEmpty path = true →
      (guiRequest regionValue lastRegion delay path region useLastRegion false false false
        false false true).tasks = [ExportTask.ACCEPT_ON_SELECT, ExportTask.SAVE none]) ∧
    (∀ (regionValue : String → QRect) (lastRegion : QRect) (delay : Int)
        (path region : String)
        (useLastRegion clipboard raw printGeometry pin upload acceptOnSelect : Bool),
      ExportTask.SAVE none ∈
          (guiRequest regionValue lastRegion delay path region useLastRegion clipboard raw
            printGeometry pin upload acceptOnSelect).tasks ↔
        (acceptOnSelect = true ∧ clipboard = false ∧ raw = false ∧ isEmpty path = true ∧
          printGeometry = false ∧ pin = false ∧ upload = false)) := by
  refine ⟨?_, ?_⟩
  · intro regionValue lastRegion delay path region useLastRegion hpath
    rw [guiRequest_tasks, hpath]
    simp
  · intro regionValue lastRegion delay path region useLastRegion clipboard raw printGeometry
      pin upload acceptOnSelect
    rw [guiRequest_tasks]
    generalize isEmpty path = pe
    cases clipboard <;> cases raw <;> cases printGeometry <;> cases pin <;> cases upload <;>
      cases acceptOnSelect <;> cases pe <;> simp

/-- Witness of C3 on `flameshot gui --accept-on-select`. -/
theorem C3_gui_accept_on_select_default_save_witness :
    isEmpty "" = true ∧
      (guiRequest (fun _ => ⟨0, 0, 0, 0⟩) ⟨0, 0, 0, 0⟩ 0 "" "" false false false false
        false false true).tasks = [ExportTask.ACCEPT_ON_SELECT, ExportTask.SAVE none] :=
  ⟨by decide,
    C3_gui_accept_on_select_default_save.1 (fun _ => ⟨0, 0, 0, 0⟩) ⟨0, 0, 0, 0⟩ 0 "" "" false
      (by decide)⟩

/-- C4: every request built by the `gui`, `full` or `screen` branch has the mode
of its subcommand (GRAPHICAL, FULLSCREEN, SCREEN) and at most one SAVE task; in
particular a SAVE with a path and the default SAVE never occur together. The
`screen` branch builds a request whenever the region does not start with
`screen`. -/
theorem C4_one_mode_at_most_one_save :
    (∀ (regionValue : String → QRect) (lastRegion : QRect) (delay : Int)
        (path region : String)
        (useLastRegion clipboard raw printGeometry pin upload acceptOnSelect : Bool),
      let req := guiRequest regionValue lastRegion delay path region useLastRegion clipboard
        raw printGeometry pin upload acceptOnSelect
      req.mode = .GRAPHICAL_MODE ∧ req.tasks.countP ExportTask.isSave ≤ 1 ∧
        ¬ (ExportTask.SAVE none ∈ req.tasks ∧ ∃ p, ExportTask.SAVE (some p) ∈ req.tasks)) ∧
    (∀ (regionValue : String → QRect) (delay : Int) (path region : String)
        (clipboard raw upload : Bool),
      let req := fullRequest regionValue delay path region clipboard raw upload
      req.mode = .FULLSCREEN_MODE ∧ req.tasks.countP ExportTask.isSave ≤ 1 ∧
        ¬ (ExportTask.SAVE none ∈ req.tasks ∧ ∃ p, ExportTask.SAVE (some p) ∈ req.tasks)) ∧
    (∀ (regionValue : String → QRect) (screenNumber delay : Int) (path region : String)
        (clipboard raw pin upload : Bool),
      startsWith region "screen" = false →
      ∃ req, screenRequest regionValue screenNumber delay path region clipboard raw pin upload
               = .ok req ∧
        req.mode = .SCREEN_MODE ∧ req.tasks.countP ExportTask.isSave ≤ 1 ∧
        ¬ (ExportTask.SAVE none ∈ req.tasks ∧ ∃ p, ExportTask.SAVE (some p) ∈ req.tasks)) := by
  refine ⟨?_, ?_, ?_⟩
  · intro regionValue lastRegion delay path region useLastRegion clipboard raw printGeometry
      pin upload acceptOnSelect
    simp only [guiRequest_mode, guiRequest_tasks]
    generalize isEmpty path = pe
    cases clipboard <;> cases raw <;> cases printGeometry <;> cases pin <;> cases upload <;>
      cases acceptOnSelect <;> cases pe <;> simp [ExportTask.isSave, List.countP_cons]
  · intro regionValue delay path region clipboard raw upload
    simp only [fullRequest_mode, fullRequest_tasks]
    generalize isEmpty path = pe
    cases clipboard <;> cases raw <;> cases upload <;> cases pe <;>
      simp [ExportTask.isSave, List.countP_cons]
  · intro regionValue screenNumber delay path region clipboard raw pin upload hregion
    refine ⟨_, screenRequest_ok regionValue screenNumber delay path region clipboard raw pin
      upload hregion, rfl, ?_⟩
    generalize isEmpty path = pe
    cases clipboard <;> cases raw <;> cases upload <;> cases pin <;> cases pe <;>
      simp [ExportTask.isSave, List.countP_cons]

/-- Witness of C4 on `flameshot screen -p shots/a.png --region all`. -/
theorem C4_one_mode_at_most_one_save_witness :
    startsWith "all" "screen" = false ∧
      (match screenRequest (fun _ => ⟨0, 0, 0, 0⟩) (-1) 0 "shots/a.png" "all" false false
          false false with
       | .ok req => req.mode = .SCREEN_MODE ∧ req.tasks.countP ExportTask.isSave ≤ 1
       | .error _ => False) := by
  refine ⟨by decide, ?_⟩
  obtain ⟨req, hreq, hmode, hcount, _⟩ := C4_one_mode_at_most_one_save.2.2
    (fun _ => ⟨0, 0, 0, 0⟩) (-1) 0 "shots/a.png" "all" false false false false (by decide)
  rw [hreq]
  exact ⟨hmode, hcount⟩

/-! ## Error paths of `main` -/

/-- When parsing fails, `main` jumps to `finish`: it returns 0 and submits
nothing. -/
theorem main_parse_failure (env : Env) (hargc : env.argc ≠ 1) (hparse : env.parse = none) :
    (main env).exitCode = some 0 ∧ (main env).requests = [] := by
  simp [main, hargc, hparse, Outcome.requests, requestsOf]

/-- C5 (code defect): on an argument vector whose parsing fails, here
`flameshot --bogus`, `main` submits no capture request but terminates with exit
code 0, not 1. -/
theorem C5_parse_failure_exit_code :
    (main (sampleEnv 2 none)).exitCode = some 0 ∧ (main (sampleEnv 2 none)).requests = [] :=
  main_parse_failure (sampleEnv 2 none) (by decide) rfl

theorem isEmpty_of_startsWith_screen (region : String)
    (h : startsWith region "screen" = true) : isEmpty region = false := by
  unfold startsWith at h
  unfold isEmpty
  cases hd : region.data with
  | nil =>
    rw [hd] at h
    exact absurd h (by decide)
  | cons c cs => rfl

/-- C6: in the `screen` subcommand, for every region value that starts with
`screen` (the `screen<N>` syntax), the builder returns no request, only the
diagnostic, so no initial selection is ever set; `main` terminates with exit code
1 after logging that diagnostic and no request is submitted. -/
theorem C6_screen_region_rejected (env : Env) (parser : CommandLineParser)
    (hargc : env.argc ≠ 1) (hparse : env.parse = some parser)
    (hhelp : parser.isSet .helpOption = false) (hversion : parser.isSet .versionOption = false)
    (hlauncher : parser.isSetArg .launcherArgument = false)
    (hgui : parser.isSetArg .guiArgument = false)
    (hfull : parser.isSetArg .fullArgument = false)
    (hscreen : parser.isSetArg .screenArgument = true)
    (hregion : startsWith (parser.value .regionOption) "screen" = true) :
    (∀ (screenNumber delay : Int) (path : String) (clipboard raw pin upload : Bool),
      screenRequest env.regionValue screenNumber delay path (parser.value .regionOption)
        clipboard raw pin upload = .error screenRegionErr) ∧
    (main env).exitCode = some 1 ∧
    (main env).requests = [] ∧
    (main env).effects =
      [.configureApp false, .reinitializeAsQApplication, .error screenRegionErr] := by
  have hne := isEmpty_of_startsWith_screen _ hregion
  have hbuild : ∀ (screenNumber delay : Int) (path : String) (clipboard raw pin upload : Bool),
      screenRequest env.regionValue screenNumber delay path (parser.value .regionOption)
        clipboard raw pin upload = .error screenRegionErr := by
    intro screenNumber delay path clipboard raw pin upload
    simp [screenRequest, hne, hregion]
  simp [main, hargc, hparse, processData, hhelp, hversion, hlauncher, hgui, hfull, hscreen,
    screenBranch, hbuild, Outcome.requests, requestsOf]

/-- Witness of C6 on `flameshot screen --region screen0`. -/
theorem C6_screen_region_rejected_witness :
    startsWith (cliScreenRegionScreen0.value .regionOption) "screen" = true ∧
      (main (sampleEnv 4 (some cliScreenRegionScreen0))).exitCode = some 1 ∧
      (main (sampleEnv 4 (some cliScreenRegionScreen0))).requests = [] :=
  have h := C6_screen_region_rejected (sampleEnv 4 (some cliScreenRegionScreen0))
    cliScreenRegionScreen0 (by decide) rfl (by decide) (by decide) (by decide) (by decide)
    (by decide) (by decide) (by decide)
  ⟨by decide, h.2.1, h.2.2.1⟩

/-! ## The numeric checker -/

theorem isSpace_of_isDigit (c : Char) (h : isDigit c = true) : isSpace c = false := by
  unfold isDigit at h
  unfold isSpace
  simp only [Bool.and_eq_true, decide_eq_true_eq] at h
  simp only [Bool.or_eq_false_iff, Bool.and_eq_false_iff, decide_eq_false_iff_not]
  omega

theorem isDigit_of_isSpace (c : Char) (h : isSpace c = true) : isDigit c = false := by
  cases hd : isDigit c with
  | false => rfl
  | true => rw [isSpace_of_isDigit c hd] at h; exact absurd h (by decide)

theorem not_sign_of_isDigit (c : Char) (h : isDigit c = true) : c ≠ '-' ∧ c ≠ '+' := by
  constructor <;> (rintro rfl; revert h; decide)

theorem foldl_digits (ds : List Char) (acc : Nat) :
    ds.foldl (fun a c => 10 * a + digitVal c) acc =
      acc * 10 ^ ds.length + Nat.ofDigits 10 (ds.reverse.map digitVal) := by
  induction ds generalizing acc with
  | nil => simp
  | cons d rest ih =>
    simp only [List.foldl_cons, ih, List.reverse_cons, List.map_append, List.map_cons,
      List.map_nil, Nat.ofDigits_append, Nat.ofDigits_singleton, List.length_map,
      List.length_reverse, List.length_cons]
    ring

theorem digitsValue_eq (ds : List Char) :
    digitsValue ds = Nat.ofDigits 10 (ds.reverse.map digitVal) := by
  simp [digitsValue, foldl_digits]

theorem dropWhile_of_head (p : Char → Bool) (l : List Char)
    (h : ∀ c ∈ l.head?, p c = false) : l.dropWhile p = l := by
  cases l with
  | nil => rfl
  | cons c rest =>
    have := h c (by simp)
    simp [List.dropWhile, this]

theorem takeWhile_of_head (p : Char → Bool) (l : List Char)
    (h : ∀ c ∈ l.head?, p c = false) : l.takeWhile p = [] := by
  cases l with
  | nil => rfl
  | cons c rest =>
    have := h c (by simp)
    simp [List.takeWhile, this]

/-- The conversion reads every numeral to the integer it denotes. -/
theorem toIntegral_of_denotes (s : String) (v : Int) (h : DenotesInt s v) :
    toIntegral s.data = some v := by
  obtain ⟨pre, sign, ds, post, hs, hpre, hpost, hne, hds, hv⟩ := h
  obtain ⟨d, ds', rfl⟩ := List.exists_cons_of_ne_nil hne
  have hd : isDigit d = true := hds d (by simp)
  have hpostHead : ∀ c ∈ post.head?, isDigit c = false := by
    intro c hc
    exact isDigit_of_isSpace c (hpost c (List.mem_of_mem_head? hc))
  have htake : ((d :: ds') ++ post).takeWhile isDigit = d :: ds' := by
    rw [List.takeWhile_append_of_pos hds, takeWhile_of_head _ _ hpostHead, List.append_nil]
  have hdrop : ((d :: ds') ++ post).dropWhile isDigit = post := by
    rw [List.dropWhile_append_of_pos hds, dropWhile_of_head _ _ hpostHead]
  have hall : post.all isSpace = true := by
    rw [List.all_eq_true]; exact hpost
  have hbody : (pre ++ (sign ++ ((d :: ds') ++ post))).dropWhile isSpace
      = sign ++ ((d :: ds') ++ post) := by
    rw [List.dropWhile_append_of_pos hpre]
    apply dropWhile_of_head
    intro c hc
    rcases hv with ⟨hsign | hsign, _⟩ | ⟨hsign, _⟩
    · subst hsign
      simp at hc
      subst hc
      exact isSpace_of_isDigit _ hd
    · subst hsign
      simp at hc
      subst hc
      decide
    · subst hsign
      simp at hc
      subst hc
      decide
  unfold toIntegral
  rw [hs, hbody]
  obtain ⟨hminus, hplus⟩ := not_sign_of_isDigit d hd
  rcases hv with ⟨hsign | hsign, hval⟩ | ⟨hsign, hval⟩
  · subst hsign
    have hstrip : stripSign ([] ++ ((d :: ds') ++ post)) = (false, (d :: ds') ++ post) := by
      simp [stripSign, hminus, hplus]
    simp only [hstrip, htake, hdrop, hall, digitsValue_eq, hval]
    simp
  · subst hsign
    have hstrip : stripSign (['+'] ++ ((d :: ds') ++ post)) = (false, (d :: ds') ++ post) := by
      simp [stripSign]
    simp only [hstrip, htake, hdrop, hall, digitsValue_eq, hval]
    simp
  · subst hsign
    have hstrip : stripSign (['-'] ++ ((d :: ds') ++ post)) = (true, (d :: ds') ++ post) := by
      simp [stripSign]
    simp only [hstrip, htake, hdrop, hall, digitsValue_eq, hval]
    simp

theorem stripSign_spec (body : List Char) :
    ∃ sign : List Char, body = sign ++ (stripSign body).2 ∧
      (((sign = [] ∨ sign = ['+']) ∧ (stripSign body).1 = false) ∨
        (sign = ['-'] ∧ (stripSign body).1 = true)) := by
  cases body with
  | nil => exact ⟨[], by simp [stripSign]⟩
  | cons c rest =>
    by_cases hm : c = '-'
    · exact ⟨['-'], by simp [stripSign, hm]⟩
    · by_cases hp : c = '+'
      · exact ⟨['+'], by simp [stripSign, hp]⟩
      · exact ⟨[], by simp [stripSign, hm, hp]⟩

/-- Whatever the conversion reads is a numeral for the value it returns. -/
theorem denotes_of_toIntegral (s : String) (v : Int) (h : toIntegral s.data = some v) :
    DenotesInt s v := by
  dsimp only [toIntegral] at h
  obtain ⟨sign, hbody, hsign⟩ := stripSign_spec (s.data.dropWhile isSpace)
  rcases hst : stripSign (s.data.dropWhile isSpace) with ⟨neg, r⟩
  rw [hst] at h hbody hsign
  dsimp only at h hbody hsign
  by_cases hempty : (r.takeWhile isDigit).isEmpty = true
  · simp [hempty] at h
  · by_cases hall : (r.dropWhile isDigit).all isSpace = true
    · simp only [hempty, hall, if_true, Bool.false_eq_true, if_false, Option.some.injEq] at h
      refine ⟨s.data.takeWhile isSpace, sign, r.takeWhile isDigit, r.dropWhile isDigit,
        ?_, ?_, ?_, ?_, ?_, ?_⟩
      · rw [List.takeWhile_append_dropWhile, ← hbody, List.takeWhile_append_dropWhile]
      · intro c hc; exact List.mem_takeWhile_imp hc
      · exact List.all_eq_true.mp hall
      · intro hnil; rw [hnil] at hempty; exact hempty rfl
      · intro c hc; exact List.mem_takeWhile_imp hc
      · rw [← digitsValue_eq]
        rcases hsign with ⟨hs, hneg⟩ | ⟨hs, hneg⟩
        · left; refine ⟨hs, ?_⟩; rw [hneg] at h; simpa using h.symm
        · right; refine ⟨hs, ?_⟩; rw [hneg] at h; simpa using h.symm
    · simp [hempty, hall] at h

/-- C7 (as stated, refuted): the text `2147483648` denotes a positive integer,
yet the numeric checker rejects it, because `toInt` fails outside the range of
`int`. -/
theorem C7_numeric_checker_counterexample :
    DenotesInt "2147483648" 2147483648 ∧ numericChecker "2147483648" = false := by
  refine ⟨⟨[], [], "2147483648".data, [], by decide, by simp, by simp, by decide, by decide,
    Or.inl ⟨Or.inl rfl, ?_⟩⟩, by decide⟩
  rw [← digitsValue_eq]
  decide

/-- C7 (amended): the checker attached to the delay and the screen-number
options is `numericChecker`; it rejects every text that denotes a negative
integer and every text that denotes no integer, accepts `0`, accepts every text
that denotes a positive integer up to 2147483647 (the largest `int`), and
rejects the numerals above that. -/
theorem C7_numeric_checker :
    addedChecker .delayOption = some .numericChecker ∧
    addedChecker .screenNumberOption = some .numericChecker ∧
    (∀ (s : String) (v : Int), DenotesInt s v → v < 0 → numericChecker s = false) ∧
    (∀ s : String, (¬ ∃ v, DenotesInt s v) → numericChecker s = false) ∧
    numericChecker "0" = true ∧
    (∀ (s : String) (v : Int), DenotesInt s v → 0 < v → v ≤ 2147483647 →
      numericChecker s = true) ∧
    (∀ (s : String) (v : Int), DenotesInt s v → 2147483647 < v → numericChecker s = false) := by
  refine ⟨rfl, rfl, ?_, ?_, by decide, ?_, ?_⟩
  · intro s v hden hneg
    have hread := toIntegral_of_denotes s v hden
    unfold numericChecker toInt
    rw [hread]
    by_cases hrange : -2147483648 ≤ v ∧ v ≤ 2147483647
    · simp [hrange]; omega
    · simp [hrange]
  · intro s hnone
    cases hread : toIntegral s.data with
    | none => simp [numericChecker, toInt, hread]
    | some v => exact absurd ⟨v, denotes_of_toIntegral s v hread⟩ hnone
  · intro s v hden hpos hmax
    have hread := toIntegral_of_denotes s v hden
    have hrange : -2147483648 ≤ v ∧ v ≤ 2147483647 := ⟨by omega, hmax⟩
    unfold numericChecker toInt
    rw [hread]
    simp [hrange]
    omega
  · intro s v hden hbig
    have hread := toIntegral_of_denotes s v hden
    have hrange : ¬ (-2147483648 ≤ v ∧ v ≤ 2147483647) := by omega
    unfold numericChecker toInt
    rw [hread]
    simp [hrange]

/-- Witness of C7 on the text `42`. -/
theorem C7_numeric_checker_witness :
    DenotesInt "42" 42 ∧ (0 : Int) < 42 ∧ (42 : Int) ≤ 2147483647 ∧
      numericChecker "42" = true :=
  have hden : DenotesInt "42" 42 :=
    ⟨[], [], "42".data, [], by decide, by simp, by simp, by decide, by decide,
      Or.inl ⟨Or.inl rfl, by rw [← digitsValue_eq]; decide⟩⟩
  ⟨hden, by decide, by decide, C7_numeric_checker.2.2.2.2.2.1 "42" 42 hden (by decide)
    (by decide)⟩

/-! ## Capture outcome -/

/-- A loop that was not told to exit on a first batch of signals goes on with
the next ones. -/
theorem exec_append_of_running (slot : Signal → SlotResult) (pre post : List Signal)
    (hpre : (exec slot pre).2 = none) :
    exec slot (pre ++ post) = ((exec slot pre).1 ++ (exec slot post).1, (exec slot post).2) := by
  induction pre with
  | nil => simp [exec]
  | cons s rest ih =>
    rw [List.cons_append]
    rcases hslot : slot s with ⟨fx, code⟩
    cases code with
    | some c => simp [exec, hslot] at hpre
    | none =>
      simp only [exec, hslot] at hpre ⊢
      simp [ih hpre]

/-- While no slot has asked for an exit, the slots have logged nothing. -/
theorem exec_effects_of_running (env : Env) (pre : List Signal)
    (hpre : (exec (captureSlot env) pre).2 = none) : (exec (captureSlot env) pre).1 = [] := by
  induction pre with
  | nil => simp [exec]
  | cons s rest ih =>
    cases s with
    | captureFailed => simp [exec, captureSlot, onCaptureFailed] at hpre
    | captureTaken =>
      have hfx := onCaptureTaken_effects env
      rcases hslot : onCaptureTaken env with ⟨fx, code⟩
      rw [hslot] at hfx
      simp only at hfx
      cases code with
      | some c => simp [exec, captureSlot, hslot] at hpre
      | none =>
        simp only [exec, captureSlot, hslot] at hpre ⊢
        simp [ih hpre, hfx]

theorem and_bitNot32_and_self (d n : Nat) (hn : n < 2 ^ 32) : (d &&& bitNot32 n) &&& n = 0 := by
  apply Nat.eq_of_testBit_eq
  intro i
  have h := Nat.testBit_two_pow_sub_succ hn i
  have hrew : bitNot32 n = 2 ^ 32 - (n + 1) := by unfold bitNot32; omega
  rw [hrew]
  simp only [Nat.testBit_and, h, Nat.zero_testBit]
  cases d.testBit i <;> cases n.testBit i <;> simp

theorem and_bitNot32_and_other (d n flag : Nat) (hd : d < 2 ^ 32) (hn : n < 2 ^ 32)
    (hflag : flag &&& n = 0) : (d &&& bitNot32 n) &&& flag = d &&& flag := by
  apply Nat.eq_of_testBit_eq
  intro i
  have h := Nat.testBit_two_pow_sub_succ hn i
  have hrew : bitNot32 n = 2 ^ 32 - (n + 1) := by unfold bitNot32; omega
  have hbit : (flag &&& n).testBit i = false := by rw [hflag]; exact Nat.zero_testBit i
  rw [Nat.testBit_and] at hbit
  rw [hrew]
  simp only [Nat.testBit_and, h]
  by_cases hi : i < 32
  · cases hdi : d.testBit i <;> cases hni : n.testBit i <;> cases hfi : flag.testBit i <;>
      simp_all
  · have hdi : d.testBit i = false :=
      Nat.testBit_lt_two_pow (lt_of_lt_of_le hd (Nat.pow_le_pow_right (by decide) (by omega)))
    simp [hdi]

/-- C8: when `captureFailed` arrives while the loop of `requestCaptureAndWait` is
still waiting (no earlier signal made a slot call exit), the loop stops with
exit code 1 and the only thing logged is "Screenshot aborted."; that message goes
to the Notification sink exactly when `showAbortNotification` is true, and to
every other sink of the default target set in both cases. The enumerators of
`AbstractLogger::Target` are parameters: 32-bit masks with Notification part of
Default. -/
theorem C8_capture_failed_aborts (env : Env) (req : CaptureRequest) (pre post : List Signal)
    (hdefault : env.targets.Default < 2 ^ 32) (hnotif : env.targets.Notification < 2 ^ 32)
    (hincl : sentTo env.targets.Default env.targets.Notification = true)
    (hsignals : env.signals = pre ++ Signal.captureFailed :: post)
    (hwaiting : (exec (captureSlot env) pre).2 = none) :
    (requestCaptureAndWait env req).2 = some 1 ∧
    (requestCaptureAndWait env req).1 =
      [.requestCapture req,
       .info (abortLogTarget env.targets env.showAbortNotification) "Screenshot aborted."] ∧
    (sentTo (abortLogTarget env.targets env.showAbortNotification) env.targets.Notification
        = true ↔ env.showAbortNotification = true) ∧
    (∀ flag : Nat, flag &&& env.targets.Notification = 0 →
      abortLogTarget env.targets env.showAbortNotification &&& flag
        = env.targets.Default &&& flag) := by
  have hrun : exec (captureSlot env) env.signals =
      ([.info (abortLogTarget env.targets env.showAbortNotification) "Screenshot aborted."],
       some 1) := by
    rw [hsignals, exec_append_of_running _ _ _ hwaiting, exec_effects_of_running _ _ hwaiting]
    simp [exec, captureSlot, onCaptureFailed]
  refine ⟨by simp [requestCaptureAndWait, hrun], by simp [requestCaptureAndWait, hrun], ?_, ?_⟩
  · cases hshow : env.showAbortNotification with
    | true => simpa [abortLogTarget] using hincl
    | false =>
      simp [abortLogTarget, sentTo, and_bitNot32_and_self _ _ hnotif]
  · intro flag hflag
    cases hshow : env.showAbortNotification with
    | true => simp [abortLogTarget]
    | false =>
      simpa [abortLogTarget] using and_bitNot32_and_other _ _ flag hdefault hnotif hflag

/-- Witness of C8: the sample run in which the only signal is `captureFailed`. -/
theorem C8_capture_failed_aborts_witness :
    abortedEnv.signals = [] ++ Signal.captureFailed :: [] ∧
      (requestCaptureAndWait abortedEnv
        (fullRequest abortedEnv.regionValue 0 "" "" true false false)).2 = some 1 ∧
      sentTo (abortLogTarget abortedEnv.targets abortedEnv.showAbortNotification)
        abortedEnv.targets.Notification = true :=
  have h := C8_capture_failed_aborts abortedEnv
    (fullRequest abortedEnv.regionValue 0 "" "" true false false) [] []
    (by decide) (by decide) (by decide) rfl rfl
  ⟨rfl, h.1, h.2.2.1.2 rfl⟩

/-- C9: on a build other than macOS, the slot of `captureTaken` asks the event
loop to exit, with code 0, exactly when this process is not a daemon and hosts
no external widget; otherwise it asks for nothing, and the loop of
`requestCaptureAndWait` goes on waiting for the signals that follow. -/
theorem C9_capture_taken_exit (env : Env) (hplatform : env.platform ≠ .macos) :
    ((onCaptureTaken env).2 = some 0 ↔
      (env.daemonInstance = false ∧ env.haveExternalWidget = false)) ∧
    (¬ (env.daemonInstance = false ∧ env.haveExternalWidget = false) →
      (onCaptureTaken env).2 = none) ∧
    (∀ (req : CaptureRequest) (rest : List Signal),
      env.signals = Signal.captureTaken :: rest →
      (requestCaptureAndWait env req).2 =
        if env.daemonInstance = false ∧ env.haveExternalWidget = false then some 0
        else (exec (captureSlot env) rest).2) := by
  have hslot : onCaptureTaken env =
      if env.daemonInstance = false ∧ env.haveExternalWidget = false then ([], some 0)
      else ([], none) := by
    unfold onCaptureTaken
    cases hp : env.platform with
    | macos => exact absurd hp hplatform
    | linux => cases env.daemonInstance <;> cases env.haveExternalWidget <;> simp
    | windows => cases env.daemonInstance <;> cases env.haveExternalWidget <;> simp
  refine ⟨?_, ?_, ?_⟩
  · rw [hslot]
    cases env.daemonInstance <;> cases env.haveExternalWidget <;> simp
  · intro hnot
    rw [hslot, if_neg hnot]
  · intro req rest hsignals
    simp only [requestCaptureAndWait, hsignals, exec, captureSlot, hslot]
    cases env.daemonInstance <;> cases env.haveExternalWidget <;> simp

/-- Witness of C9: the sample Linux run, neither daemon nor widget host. -/
theorem C9_capture_taken_exit_witness :
    (sampleEnv 3 (some cliFullClipboard)).platform ≠ .macos ∧
      (onCaptureTaken (sampleEnv 3 (some cliFullClipboard))).2 = some 0 :=
  ⟨by decide,
    (C9_capture_taken_exit (sampleEnv 3 (some cliFullClipboard)) (by decide)).1.2 ⟨rfl, rfl⟩⟩

/-! ## Instance guard -/

/-- C10: if a call of `guiMutexLock` returns a token, then that token is
attached and the segment exists with exactly that one attachment; a second call
made while the token is still held returns `nullptr` and leaves the segment as
it was. This holds for both builds, also on Unix where the call first attaches
to and releases the segment before it tries to create it. -/
theorem C10_second_lock_busy (isUnix : Bool) (os os1 : ShmState) (token : QSharedMemory)
    (hfirst : guiMutexLock isUnix os = (some token, os1)) :
    token.attached = true ∧ os1 = some 1 ∧ guiMutexLock isUnix os1 = (none, os1) := by
  cases isUnix <;> rcases os with _ | _ | n <;>
    simp [guiMutexLock, QSharedMemory.attach, QSharedMemory.delete, QSharedMemory.detach,
      QSharedMemory.create] at hfirst ⊢ <;>
    (obtain ⟨rfl, rfl⟩ := hfirst; simp)

/-- Witness of C10: on Unix, with no segment present, the first call returns a
token and the second returns `nullptr`. -/
theorem C10_second_lock_busy_witness :
    guiMutexLock true none = (some { attached := true }, some 1) ∧
      guiMutexLock true (some 1) = (none, some 1) :=
  ⟨rfl, (C10_second_lock_busy true none (some 1) { attached := true } rfl).2.2⟩

/-- With multiple instances allowed the `gui` branch does not look at the guard
segment: changing its state changes nothing but the state itself. -/
theorem guiBranch_ignores_guard (env : Env) (parser : CommandLineParser) (os : ShmState)
    (hallow : env.allowMultipleGuiInstances = true) :
    (guiBranch { env with shm := os } parser).effects = (guiBranch env parser).effects ∧
    (guiBranch { env with shm := os } parser).exitCode = (guiBranch env parser).exitCode ∧
    (guiBranch { env with shm := os } parser).shm = os := by
  cases env
  simp only at hallow
  subst hallow
  exact ⟨rfl, rfl, rfl⟩

/-- C11: in the `gui` subcommand, when the configuration does not allow multiple
GUI instances and `guiMutexLock` returns `nullptr`, `main` returns 1 right after
the reinitialisation: no request is built or submitted. When the configuration
allows multiple instances, the request of the command line is built and
submitted, the guard segment is left as it was, and the run is the same
whatever the state of the guard (so `guiMutexLock` is not consulted). -/
theorem C11_gui_instance_guard (env : Env) (parser : CommandLineParser)
    (hargc : env.argc ≠ 1) (hparse : env.parse = some parser)
    (hhelp : parser.isSet .helpOption = false) (hversion : parser.isSet .versionOption = false)
    (hlauncher : parser.isSetArg .launcherArgument = false)
    (hgui : parser.isSetArg .guiArgument = true) :
    (env.allowMultipleGuiInstances = false →
      (guiMutexLock env.platform.isUnix env.shm).1 = none →
      (main env).exitCode = some 1 ∧ (main env).requests = [] ∧
        (main env).effects = [.configureApp false, .reinitializeAsQApplication]) ∧
    (env.allowMultipleGuiInstances = true →
      (main env).requests =
        [guiRequest env.regionValue env.lastRegion (toInt (parser.value .delayOption)).2
          (resolvedPath env parser) (parser.value .regionOption)
          (parser.isSet .useLastRegionOption) (parser.isSet .clipboardOption)
          (parser.isSet .rawImageOption) (parser.isSet .selectionOption)
          (parser.isSet .pinOption) (parser.isSet .uploadOption)
          (parser.isSet .acceptOnSelectOption)] ∧
      (main env).shm = env.shm ∧
      ∀ os : ShmState,
        (main { env with shm := os }).effects = (main env).effects ∧
        (main { env with shm := os }).exitCode = (main env).exitCode ∧
        (main { env with shm := os }).shm = os) := by
  have hmain : ∀ e : Env, e.argc = env.argc → e.parse = env.parse →
      main e = ⟨(guiBranch e parser).exitCode, .configureApp false :: (guiBranch e parser).effects,
        (guiBranch e parser).shm⟩ := by
    intro e hc hp
    simp [main, hc, hp, hargc, hparse, processData, hhelp, hversion, hlauncher, hgui]
  refine ⟨?_, ?_⟩
  · intro hallow hbusy
    rw [hmain env rfl rfl]
    rcases hlock : guiMutexLock env.platform.isUnix env.shm with ⟨tok, os⟩
    rw [hlock] at hbusy
    simp only at hbusy
    subst hbusy
    simp [guiBranch, hallow, hlock, Outcome.requests, requestsOf]
  · intro hallow
    refine ⟨?_, ?_, ?_⟩
    · rw [hmain env rfl rfl]
      simp [guiBranch, hallow, guiCapture, Outcome.requests, requestsOf,
        requestCaptureAndWait, requestsOf_exec]
    · rw [hmain env rfl rfl]
      simp [guiBranch, hallow]
    · intro os
      have h := guiBranch_ignores_guard env parser os hallow
      rw [hmain env rfl rfl, hmain { env with shm := os } rfl rfl]
      simp [h.1, h.2.1, h.2.2]

/-- Witness of C11: `flameshot gui` while another instance holds the guard, first
with multiple instances not allowed, then with multiple instances allowed. -/
theorem C11_gui_instance_guard_witness :
    (guiMutexLock busyEnv.platform.isUnix busyEnv.shm).1 = none ∧
      (main busyEnv).exitCode = some 1 ∧ (main busyEnv).requests = [] ∧
      (main multiEnv).requests.length = 1 ∧ (main multiEnv).shm = some 1 :=
  have hbusy := (C11_gui_instance_guard busyEnv cliGui (by decide) rfl (by decide) (by decide)
    (by decide) (by decide)).1 rfl (by decide)
  have hmulti := (C11_gui_instance_guard multiEnv cliGui (by decide) rfl (by decide)
    (by decide) (by decide) (by decide)).2 rfl
  ⟨by decide, hbusy.1, hbusy.2.1, by rw [hmulti.1]; rfl, hmulti.2.1⟩

/-! ## The `config` subcommand -/

/-- When the dispatch reaches the `config` branch, `main` is that branch after
`configureApp(false)`. -/
theorem main_config (env : Env) (parser : CommandLineParser)
    (hargc : env.argc ≠ 1) (hparse : env.parse = some parser)
    (hhelp : parser.isSet .helpOption = false) (hversion : parser.isSet .versionOption = false)
    (hlauncher : parser.isSetArg .launcherArgument = false)
    (hgui : parser.isSetArg .guiArgument = false)
    (hfull : parser.isSetArg .fullArgument = false)
    (hscreen : parser.isSetArg .screenArgument = false)
    (hconfig : parser.isSetArg .configArgument = true) :
    main env = ⟨(configBranch env parser).exitCode,
      .configureApp false :: (configBranch env parser).effects, (configBranch env parser).shm⟩ := by
  simp [main, hargc, hparse, processData, hhelp, hversion, hlauncher, hgui, hfull, hscreen,
    hconfig]

/-- The `config` branch without `--check`, as far as the six options it reads
go: the configuration dialog is launched exactly when none of autostart,
notifications, filename, trayicon, maincolor, contrastcolor is set, and
otherwise the effects are the setter calls of the options that are set. The
showhelp option plays no part. -/
theorem configBranch_without_check (env : Env) (parser : CommandLineParser)
    (hcheck : parser.isSet .checkOption = false) :
    (Effect.configGui ∈ (configBranch env parser).effects ↔
      (parser.isSet .autostartOption = false ∧ parser.isSet .notificationOption = false ∧
        parser.isSet .filenameOption = false ∧ parser.isSet .trayOption = false ∧
        parser.isSet .mainColorOption = false ∧ parser.isSet .contrastColorOption = false)) ∧
    (¬ (parser.isSet .autostartOption = false ∧ parser.isSet .notificationOption = false ∧
        parser.isSet .filenameOption = false ∧ parser.isSet .trayOption = false ∧
        parser.isSet .mainColorOption = false ∧ parser.isSet .contrastColorOption = false) →
      (configBranch env parser).effects =
        configSetters parser (parser.isSet .autostartOption) (parser.isSet .notificationOption)
          (parser.isSet .filenameOption) (parser.isSet .trayOption)
          (parser.isSet .mainColorOption) (parser.isSet .contrastColorOption)) := by
  unfold configBranch
  simp only [hcheck]
  cases parser.isSet .autostartOption <;> cases parser.isSet .notificationOption <;>
    cases parser.isSet .filenameOption <;> cases parser.isSet .trayOption <;>
    cases parser.isSet .mainColorOption <;> cases parser.isSet .contrastColorOption <;>
    simp [configSetters]

/-- C12 (code defect): on `flameshot config --showhelp true` the `config` branch
launches the configuration dialog and calls no setter, although an option is
set: the showhelp option is never read. -/
theorem C12_config_showhelp_ignored :
    cliConfigShowhelp.isSet .showHelpOption = true ∧
      (main (sampleEnv 4 (some cliConfigShowhelp))).effects =
        [.configureApp false, .reinitializeAsQApplication, .configGui] ∧
      (main (sampleEnv 4 (some cliConfigShowhelp))).effects.any Effect.isSetter = false := by
  decide

/-- C13: in the `config` subcommand with `--check` set, whatever other options
are set, `main` runs the configuration check and nothing else: no setter is
called, the configuration dialog is not launched, the only other effect is the
"No errors detected." message when the check passes; the exit code is 0 when
`checkForErrors` reports no errors and 1 when it reports errors. -/
theorem C13_config_check (env : Env) (parser : CommandLineParser)
    (hargc : env.argc ≠ 1) (hparse : env.parse = some parser)
    (hhelp : parser.isSet .helpOption = false) (hversion : parser.isSet .versionOption = false)
    (hlauncher : parser.isSetArg .launcherArgument = false)
    (hgui : parser.isSetArg .guiArgument = false)
    (hfull : parser.isSetArg .fullArgument = false)
    (hscreen : parser.isSetArg .screenArgument = false)
    (hconfig : parser.isSetArg .configArgument = true)
    (hcheck : parser.isSet .checkOption = true) :
    (main env).effects =
      .configureApp false :: .checkForErrors ::
        (if env.checkForErrors then [.info env.targets.Default "No errors detected.\n"]
         else []) ∧
    (main env).effects.any Effect.isSetter = false ∧
    Effect.configGui ∉ (main env).effects ∧
    (main env).exitCode = some (if env.checkForErrors then 0 else 1) := by
  rw [main_config env parser hargc hparse hhelp hversion hlauncher hgui hfull hscreen hconfig]
  unfold configBranch
  simp only [hcheck]
  cases env.checkForErrors <;> simp [Effect.isSetter]

/-- Witness of C13: `flameshot config --check --autostart true` on a
configuration without errors. -/
theorem C13_config_check_witness :
    cliConfigCheckAutostart.isSet .checkOption = true ∧
      cliConfigCheckAutostart.isSet .autostartOption = true ∧
      (main (sampleEnv 5 (some cliConfigCheckAutostart))).effects.any Effect.isSetter = false ∧
      (main (sampleEnv 5 (some cliConfigCheckAutostart))).exitCode = some 0 :=
  have h := C13_config_check (sampleEnv 5 (some cliConfigCheckAutostart))
    cliConfigCheckAutostart (by decide) rfl (by decide) (by decide) (by decide) (by decide)
    (by decide) (by decide) (by decide) (by decide)
  ⟨by decide, by decide, h.2.1, h.2.2.2⟩

end Flameshot
